import Mathlib

/-!
Verification of the registration-form core of `src/components/Form.tsx`:
the per-field validators (`validateField`), the state-update handlers
(`handleInputChange`, `handleCountryChange`, `handleCheckboxChange`,
`handleSubmit`), the derived overall-validity flag recomputed by the
`useEffect` hook, and the submission payload.

Strings are modelled as Lean `String` (lists of characters); the
JavaScript regexes used by the source are modelled as decidable
character-list predicates with the same matching semantics.
-/

/-- Models the JavaScript `\s` character class used by the source's
regexes and by `parseInt` leading-whitespace skipping. -/
def jsWhitespaceChar (c : Char) : Bool :=
  c == ' ' || c == '\t' || c == '\n' || c == '\r' || c == '\x0b' || c == '\x0c' ||
  c == '\u00A0' || c == '\u1680' || ('\u2000' ≤ c && c ≤ '\u200A') ||
  c == '\u2028' || c == '\u2029' || c == '\u202F' || c == '\u205F' ||
  c == '\u3000' || c == '\uFEFF'

/-- True iff the list contains a `'.'` followed by at least one character. -/
def hasDotWithTail : List Char → Bool
  | [] => false
  | '.' :: _ :: _ => true
  | _ :: rest => hasDotWithTail rest

/-- True iff the list contains a `'.'` at some position ≥ 1 that also has at
least one character after it (so the list splits as `B ++ '.' :: C` with
`B` and `C` nonempty). -/
def hasInnerDot : List Char → Bool
  | [] => false
  | _ :: rest => hasDotWithTail rest

/-- Models the source's email regex `^[^\s@]+@[^\s@]+\.[^\s@]+$`: the string
matches iff it decomposes as `A ++ "@" ++ B ++ "." ++ C` with `A`, `B`, `C`
nonempty and free of whitespace and `@`.  Since `A`, `B`, `C` all exclude
`@`, the string has exactly one `@`; we split there and check the parts. -/
def emailRegexTest (s : String) : Bool :=
  let cs := s.data
  match cs.dropWhile (· != '@') with
  | '@' :: r =>
      let a := cs.takeWhile (· != '@')
      !a.isEmpty && a.all (fun c => !jsWhitespaceChar c) &&
      !r.isEmpty && r.all (fun c => !jsWhitespaceChar c && c != '@') &&
      hasInnerDot r
  | _ => false

/-- Models JavaScript `String.prototype.endsWith` on our character lists. -/
def endsWithStr (s suffix : String) : Bool :=
  suffix.data.isSuffixOf s.data

/-- Models the source's phone regex `^\d+$`: nonempty and all decimal digits. -/
def digitsOnlyTest (s : String) : Bool :=
  !s.data.isEmpty && s.data.all Char.isDigit

/-- Membership in the source's password special-character class `[!@#$%^&*]`. -/
def isSpecialChar (c : Char) : Bool :=
  ['!', '@', '#', '$', '%', '^', '&', '*'].contains c

/-- Models `processedValue.replace(/\D/g, "")`: keep only decimal digits. -/
def stripNonDigits (s : String) : String :=
  ⟨s.data.filter Char.isDigit⟩

/-- Decimal digit value, `none` for non-digits. -/
def decDigitVal (c : Char) : Option Nat :=
  if c.isDigit then some (c.toNat - 48) else none

/-- Hexadecimal digit value, `none` for non-hex-digits. -/
def hexDigitVal (c : Char) : Option Nat :=
  if c.isDigit then some (c.toNat - 48)
  else if 'a' ≤ c && c ≤ 'f' then some (c.toNat - 97 + 10)
  else if 'A' ≤ c && c ≤ 'F' then some (c.toNat - 65 + 10)
  else none

/-- Parse the longest prefix of digits recognised by `dval`; `none` when that
prefix is empty (JavaScript `parseInt` returns `NaN` then). -/
def parseDigitsWith (base : Nat) (dval : Char → Option Nat) (cs : List Char) :
    Option Nat :=
  let ds := cs.takeWhile (fun c => (dval c).isSome)
  if ds.isEmpty then none
  else some (ds.foldl (fun acc c => acc * base + ((dval c).getD 0)) 0)

/-- Models JavaScript `parseInt(value)` with no radix argument: skip leading
whitespace, optional sign, optional `0x`/`0X` hex prefix, then the longest
prefix of digits; `none` models `NaN`. -/
def jsParseInt (s : String) : Option Int :=
  let cs := s.data.dropWhile jsWhitespaceChar
  let signed : Bool × List Char :=
    match cs with
    | '-' :: rest => (true, rest)
    | '+' :: rest => (false, rest)
    | _ => (false, cs)
  let mag : Option Nat :=
    match signed.2 with
    | '0' :: 'x' :: rest => parseDigitsWith 16 hexDigitVal rest
    | '0' :: 'X' :: rest => parseDigitsWith 16 hexDigitVal rest
    | cs2 => parseDigitsWith 10 decDigitVal cs2
  match mag with
  | none => none
  | some n => some (if signed.1 then -(n : Int) else (n : Int))

namespace validateField

/-- `validateField.fullName` from the source. -/
def fullName (value : String) : String :=
  if value = "" then "Full name is required"
  else if value.length < 3 then "Full name must be at least 3 characters"
  else ""

/-- `validateField.email` from the source. -/
def email (value : String) : String :=
  if value = "" then "Email is required"
  else if !emailRegexTest value then "Please enter a valid email address"
  else if !endsWithStr value ".com" && !endsWithStr value ".net" then
    "Email must end with .com or .net"
  else ""

/-- `validateField.password` from the source. -/
def password (value : String) : String :=
  if value = "" then "Password is required"
  else if value.length < 8 then "Password must be at least 8 characters"
  else if !value.data.any Char.isDigit then
    "Password must include at least one number"
  else if !value.data.any isSpecialChar then
    "Password must include at least one special character"
  else ""

/-- `validateField.phone` from the source. -/
def phone (value : String) : String :=
  if value = "" then "Phone number is required"
  else if !digitsOnlyTest value then "Please enter numbers only"
  else if value.length ≠ 10 then "Please enter a valid 10-digit phone number"
  else ""

/-- `validateField.age` from the source. -/
def age (value : String) : String :=
  if value = "" then "Age is required"
  else
    match jsParseInt value with
    | none => "Age must be between 18 and 65"
    | some n => if n < 18 || n > 65 then "Age must be between 18 and 65" else ""

/-- `validateField.country` from the source. -/
def country (value : String) : String :=
  if value = "" then "Please select a country"
  else ""

/-- `validateField.agreeToTerms` from the source. -/
def agreeToTerms (value : Bool) : String :=
  if !value then "You must agree to the terms"
  else ""

end validateField

/-- The `FormData` interface from the source. -/
structure FormData where
  fullName : String
  email : String
  password : String
  phone : String
  age : String
  agreeToTerms : Bool
  country : String
deriving DecidableEq, Repr

/-- The string-valued form fields reachable through `handleInputChange`
(the `agreeToTerms` checkbox goes through `handleCheckboxChange` instead). -/
inductive StrField where
  | fullName
  | email
  | password
  | phone
  | age
  | country
deriving DecidableEq, Repr

/-- Read a string field out of `FormData`. -/
def FormData.get (fd : FormData) : StrField → String
  | .fullName => fd.fullName
  | .email => fd.email
  | .password => fd.password
  | .phone => fd.phone
  | .age => fd.age
  | .country => fd.country

/-- Write a string field of `FormData` (the spread `{ ...prev, [fieldName]: v }`). -/
def FormData.set (fd : FormData) : StrField → String → FormData
  | .fullName, v => { fd with fullName := v }
  | .email, v => { fd with email := v }
  | .password, v => { fd with password := v }
  | .phone, v => { fd with phone := v }
  | .age, v => { fd with age := v }
  | .country, v => { fd with country := v }

/-- The `errors` record: each entry is `none` while the key is absent from the
initial `{}` object, and `some msg` once it has been written. -/
structure Errors where
  fullName : Option String
  email : Option String
  password : Option String
  phone : Option String
  age : Option String
  agreeToTerms : Option String
  country : Option String
deriving DecidableEq, Repr

/-- Read a string field's error entry. -/
def Errors.get (e : Errors) : StrField → Option String
  | .fullName => e.fullName
  | .email => e.email
  | .password => e.password
  | .phone => e.phone
  | .age => e.age
  | .country => e.country

/-- Write a string field's error entry (the spread `{ ...prev, [fieldName]: err }`). -/
def Errors.set (e : Errors) : StrField → Option String → Errors
  | .fullName, v => { e with fullName := v }
  | .email, v => { e with email := v }
  | .password, v => { e with password := v }
  | .phone, v => { e with phone := v }
  | .age, v => { e with age := v }
  | .country, v => { e with country := v }

/-- Dispatch to the string-field validators, `validateField[fieldName]`. -/
def validateStr : StrField → String → String
  | .fullName => validateField.fullName
  | .email => validateField.email
  | .password => validateField.password
  | .phone => validateField.phone
  | .age => validateField.age
  | .country => validateField.country

/-- The component's state: `selectedCountry`, `formData`, `errors`,
`isSubmitted` and `isFormValid`, as held by the `useState` hooks. -/
structure FormStore where
  selectedCountry : String
  formData : FormData
  errors : Errors
  isSubmitted : Bool
  isFormValid : Bool
deriving DecidableEq, Repr

/-- The validity recomputation of the `useEffect` hook: rerun every field's
validator against the current `formData` value, and additionally validate
`selectedCountry` with the country validator; valid iff all results are empty. -/
def computeIsFormValid (fd : FormData) (selectedCountry : String) : Bool :=
  (validateField.fullName fd.fullName == "") &&
  (validateField.email fd.email == "") &&
  (validateField.password fd.password == "") &&
  (validateField.phone fd.phone == "") &&
  (validateField.age fd.age == "") &&
  (validateField.agreeToTerms fd.agreeToTerms == "") &&
  (validateField.country fd.country == "") &&
  (validateField.country selectedCountry == "")

/-- Run the `useEffect` hook: store the recomputed validity flag.  The effect
fires after every change of `formData` or `selectedCountry`, so each handler
below ends by applying it. -/
def applyEffect (s : FormStore) : FormStore :=
  { s with isFormValid := computeIsFormValid s.formData s.selectedCountry }

/-- `handleInputChange(value, fieldName)` from the source, followed by the
validity effect: for `phone` strip non-digits first, store the processed
value, validate it, store the error. -/
def handleInputChange (s : FormStore) (fieldName : StrField) (value : String) :
    FormStore :=
  let processedValue := if fieldName = .phone then stripNonDigits value else value
  applyEffect
    { s with
      formData := s.formData.set fieldName processedValue,
      errors := s.errors.set fieldName (some (validateStr fieldName processedValue)) }

/-- `handleCountryChange` from the source: store the value in the dedicated
`selectedCountry` slot, then run the generic update path for `country`. -/
def handleCountryChange (s : FormStore) (value : String) : FormStore :=
  handleInputChange { s with selectedCountry := value } .country value

/-- `handleCheckboxChange` from the source (plus the validity effect): flip
`agreeToTerms` and set its error message directly. -/
def handleCheckboxChange (s : FormStore) : FormStore :=
  let newValue := !s.formData.agreeToTerms
  applyEffect
    { s with
      formData := { s.formData with agreeToTerms := newValue },
      errors := { s.errors with
                  agreeToTerms := some (if newValue then "" else "You must agree to the terms") } }

/-- `handleSubmit` from the source: when `isFormValid`, transition to the
terminal submitted state; otherwise do nothing. -/
def handleSubmit (s : FormStore) : FormStore :=
  if s.isFormValid then { s with isSubmitted := true } else s

/-- The submission payload assembled by `handleSubmit` when the form is valid:
`{ ...formData, country: selectedCountry }`. -/
def submissionData (s : FormStore) : FormData :=
  { s.formData with country := s.selectedCountry }

/-- The initial state of the `useState` hooks. -/
def initialStore : FormStore :=
  { selectedCountry := ""
    formData :=
      { fullName := "", email := "", password := "", phone := ""
        age := "", agreeToTerms := false, country := "" }
    errors :=
      { fullName := none, email := none, password := none, phone := none
        age := none, agreeToTerms := none, country := none }
    isSubmitted := false
    isFormValid := false }

/-- The states reachable from the initial state through the component's event
handlers. -/
inductive Reachable : FormStore → Prop
  | init : Reachable initialStore
  | update (s : FormStore) (f : StrField) (v : String) :
      Reachable s → Reachable (handleInputChange s f v)
  | countryChange (s : FormStore) (v : String) :
      Reachable s → Reachable (handleCountryChange s v)
  | checkbox (s : FormStore) :
      Reachable s → Reachable (handleCheckboxChange s)
  | submitEv (s : FormStore) :
      Reachable s → Reachable (handleSubmit s)

/-- The overall-validity relation claimed by the spec: every field's validator
applied to its current `FormData` value returns the empty string, and the
country validator also accepts the separate `selectedCountry` slot. -/
def allValid (fd : FormData) (selectedCountry : String) : Prop :=
  validateField.fullName fd.fullName = "" ∧
  validateField.email fd.email = "" ∧
  validateField.password fd.password = "" ∧
  validateField.phone fd.phone = "" ∧
  validateField.age fd.age = "" ∧
  validateField.agreeToTerms fd.agreeToTerms = "" ∧
  validateField.country fd.country = "" ∧
  validateField.country selectedCountry = ""

/-- The fully-populated, rule-compliant example scenario from the spec,
reached from the initial state through the event handlers. -/
def filledStore : FormStore :=
  handleCheckboxChange (handleCountryChange (handleInputChange (handleInputChange
    (handleInputChange (handleInputChange (handleInputChange initialStore
      StrField.fullName "John Doe") StrField.email "john@test.com")
      StrField.password "Abcdef1!") StrField.phone "1234567890")
      StrField.age "30") "usa")

theorem stripNonDigits_idem (v : String) :
    stripNonDigits (stripNonDigits v) = stripNonDigits v := by
  simp [stripNonDigits, List.filter_filter]

theorem all_isDigit_filter (l : List Char) :
    (l.filter Char.isDigit).all Char.isDigit = true := by
  induction l with
  | nil => rfl
  | cons c t ih => by_cases h : Char.isDigit c <;> simp [List.filter_cons, h, ih]

theorem string_eq_of_data_eq (a b : String) (h : a.data = b.data) : a = b := by
  cases a; cases b; exact congrArg String.mk h

theorem reachable_isFormValid_eq (s : FormStore) (h : Reachable s) :
    s.isFormValid = computeIsFormValid s.formData s.selectedCountry := by
  induction h with
  | init => rfl
  | update s f v _ _ => rfl
  | countryChange s v _ _ => rfl
  | checkbox s _ _ => rfl
  | submitEv s _ ih =>
      cases hv : s.isFormValid <;> simp [handleSubmit, hv] <;> simpa [hv] using ih

theorem filledStore_reachable : Reachable filledStore :=
  Reachable.checkbox _ (Reachable.countryChange _ _ (Reachable.update _ _ _
    (Reachable.update _ _ _ (Reachable.update _ _ _ (Reachable.update _ _ _
      (Reachable.update _ _ _ Reachable.init))))))

/-- C1: `handleSubmit` is a no-op (the whole state, in particular the
submitted flag, `formData` and `errors`, is unchanged) when `isFormValid` is
false; when `isFormValid` is true it sets the terminal `isSubmitted` flag,
leaves `formData` and `errors` unchanged, and the submission payload equals
`formData` with its country entry replaced by the `selectedCountry` slot. -/
theorem submit_gating (s : FormStore) :
    (s.isFormValid = false → handleSubmit s = s) ∧
    (s.isFormValid = true →
      (handleSubmit s).isSubmitted = true ∧
      (handleSubmit s).formData = s.formData ∧
      (handleSubmit s).errors = s.errors ∧
      submissionData (handleSubmit s) =
        { s.formData with country := s.selectedCountry }) := by
  constructor
  · intro h; simp [handleSubmit, h]
  · intro h; simp [handleSubmit, submissionData, h]

/-- C1 witness: submit on the (invalid) initial state changes nothing; submit
on the valid filled-in example state reaches the Submitted state. -/
theorem submit_gating_witness :
    handleSubmit initialStore = initialStore ∧
    (handleSubmit filledStore).isSubmitted = true :=
  ⟨(submit_gating initialStore).1 rfl,
   ((submit_gating filledStore).2 (by decide)).1⟩

/-- C2: in every reachable state, `isFormValid` is true iff every field's
validator accepts its current `formData` value and the country validator also
accepts the separate `selectedCountry` slot. -/
theorem overall_validity_characterisation (s : FormStore) (h : Reachable s) :
    s.isFormValid = true ↔ allValid s.formData s.selectedCountry := by
  rw [reachable_isFormValid_eq s h]
  simp [computeIsFormValid, allValid, Bool.and_eq_true, and_assoc]

/-- C2 witness: the characterisation applied to the reachable filled-in
example state, whose validity flag is true. -/
theorem overall_validity_characterisation_witness :
    filledStore.isFormValid = true ∧
    allValid filledStore.formData filledStore.selectedCountry :=
  ⟨by decide,
   (overall_validity_characterisation filledStore filledStore_reachable).mp
     (by decide)⟩

/-- C3: after `handleInputChange` the stored error for the updated field is
exactly the field's validator applied to the value now stored in `formData`;
after `handleCheckboxChange` the same holds for `agreeToTerms`. -/
theorem error_not_stale (s : FormStore) (f : StrField) (v : String) :
    (handleInputChange s f v).errors.get f
      = some (validateStr f ((handleInputChange s f v).formData.get f)) ∧
    (handleCheckboxChange s).errors.agreeToTerms
      = some (validateField.agreeToTerms
          (handleCheckboxChange s).formData.agreeToTerms) := by
  constructor
  · cases f <;>
      simp [handleInputChange, applyEffect, FormData.set, FormData.get,
        Errors.set, Errors.get]
  · cases h : s.formData.agreeToTerms <;>
      simp [handleCheckboxChange, applyEffect, validateField.agreeToTerms, h]

/-- C4: the email validator returns the required message on the empty string,
the format error when the regex rejects, the suffix error when the address
ends in neither `.com` nor `.net`, and the empty string otherwise; with the
spec's three examples. -/
theorem email_validator_cases (v : String) :
    (v = "" → validateField.email v = "Email is required") ∧
    (v ≠ "" → emailRegexTest v = false →
      validateField.email v = "Please enter a valid email address") ∧
    (v ≠ "" → emailRegexTest v = true → endsWithStr v ".com" = false →
      endsWithStr v ".net" = false →
      validateField.email v = "Email must end with .com or .net") ∧
    (v ≠ "" → emailRegexTest v = true →
      (endsWithStr v ".com" = true ∨ endsWithStr v ".net" = true) →
      validateField.email v = "") ∧
    validateField.email "a@b.com" = "" ∧
    validateField.email "a@b.org" = "Email must end with .com or .net" ∧
    validateField.email "not-an-email" = "Please enter a valid email address" := by
  refine ⟨?_, ?_, ?_, ?_, by decide, by decide, by decide⟩
  · intro h; simp [validateField.email, h]
  · intro h hr; simp [validateField.email, h, hr]
  · intro h hr hc hn; simp [validateField.email, h, hr, hc, hn]
  · intro h hr hcn
    rcases hcn with hc | hc <;> simp [validateField.email, h, hr, hc]

/-- C4 witness: the four conditional branches each applied at a concrete
input discharging their hypotheses. -/
theorem email_validator_cases_witness :
    validateField.email "" = "Email is required" ∧
    validateField.email "nope" = "Please enter a valid email address" ∧
    validateField.email "a@b.io" = "Email must end with .com or .net" ∧
    validateField.email "a@b.net" = "" :=
  ⟨(email_validator_cases "").1 rfl,
   (email_validator_cases "nope").2.1 (by decide) (by decide),
   (email_validator_cases "a@b.io").2.2.1 (by decide) (by decide)
     (by decide) (by decide),
   (email_validator_cases "a@b.net").2.2.2.1 (by decide) (by decide)
     (Or.inr (by decide))⟩

/-- C5: the password validator applies required, minimum length 8, contains a
digit, contains a special character, in order with first failure winning, and
returns the empty string when all pass; with the spec's two examples. -/
theorem password_validator_cases (v : String) :
    (v = "" → validateField.password v = "Password is required") ∧
    (v ≠ "" → v.length < 8 →
      validateField.password v = "Password must be at least 8 characters") ∧
    (v ≠ "" → ¬ v.length < 8 → v.data.any Char.isDigit = false →
      validateField.password v = "Password must include at least one number") ∧
    (v ≠ "" → ¬ v.length < 8 → v.data.any Char.isDigit = true →
      v.data.any isSpecialChar = false →
      validateField.password v =
        "Password must include at least one special character") ∧
    (v ≠ "" → ¬ v.length < 8 → v.data.any Char.isDigit = true →
      v.data.any isSpecialChar = true → validateField.password v = "") ∧
    validateField.password "abc12345" =
      "Password must include at least one special character" ∧
    validateField.password "abcd123!" = "" := by
  refine ⟨?_, ?_, ?_, ?_, ?_, by decide, by decide⟩
  · intro h; simp [validateField.password, h]
  · intro h hl; simp [validateField.password, h, hl]
  · intro h hl hd; simp [validateField.password, h, hl, hd]
  · intro h hl hd hs; simp [validateField.password, h, hl, hd, hs]
  · intro h hl hd hs; simp [validateField.password, h, hl, hd, hs]

/-- C5 witness: the five branches applied at concrete inputs discharging
their hypotheses. -/
theorem password_validator_cases_witness :
    validateField.password "" = "Password is required" ∧
    validateField.password "abc" = "Password must be at least 8 characters" ∧
    validateField.password "abcdefgh" =
      "Password must include at least one number" ∧
    validateField.password "abc12345" =
      "Password must include at least one special character" ∧
    validateField.password "abcd123!" = "" :=
  ⟨(password_validator_cases "").1 rfl,
   (password_validator_cases "abc").2.1 (by decide) (by decide),
   (password_validator_cases "abcdefgh").2.2.1 (by decide) (by decide)
     (by decide),
   (password_validator_cases "abc12345").2.2.2.1 (by decide) (by decide)
     (by decide) (by decide),
   (password_validator_cases "abcd123!").2.2.2.2.1 (by decide) (by decide)
     (by decide) (by decide)⟩

/-- C6: the age validator returns the required message on the empty string;
otherwise an error unless the value parses (JavaScript `parseInt`) to an
integer in [18, 65], in which case it returns the empty string; with the
spec's three examples. -/
theorem age_validator_cases (v : String) :
    (v = "" → validateField.age v = "Age is required") ∧
    (v ≠ "" → jsParseInt v = none →
      validateField.age v = "Age must be between 18 and 65") ∧
    (∀ n : Int, v ≠ "" → jsParseInt v = some n → (n < 18 ∨ 65 < n) →
      validateField.age v = "Age must be between 18 and 65") ∧
    (∀ n : Int, v ≠ "" → jsParseInt v = some n → 18 ≤ n → n ≤ 65 →
      validateField.age v = "") ∧
    validateField.age "17" = "Age must be between 18 and 65" ∧
    validateField.age "65" = "" ∧
    validateField.age "abc" = "Age must be between 18 and 65" := by
  refine ⟨?_, ?_, ?_, ?_, by decide, by decide, by decide⟩
  · intro h; simp [validateField.age, h]
  · intro h hn; simp [validateField.age, h, hn]
  · intro n h hn hr
    rcases hr with h1 | h1 <;> simp [validateField.age, h, hn, h1]
  · intro n h hn h18 h65
    have h1 : ¬ n < 18 := by omega
    have h2 : ¬ n > 65 := by omega
    simp [validateField.age, h, hn, h1, h2]

/-- C6 witness: the four branches applied at concrete inputs discharging
their hypotheses. -/
theorem age_validator_cases_witness :
    validateField.age "" = "Age is required" ∧
    validateField.age "abc" = "Age must be between 18 and 65" ∧
    validateField.age "17" = "Age must be between 18 and 65" ∧
    validateField.age "30" = "" :=
  ⟨(age_validator_cases "").1 rfl,
   (age_validator_cases "abc").2.1 (by decide) (by decide),
   (age_validator_cases "17").2.2.1 17 (by decide) (by decide)
     (Or.inl (by decide)),
   (age_validator_cases "30").2.2.2.1 30 (by decide) (by decide)
     (by decide) (by decide)⟩

/-- C7: updating the phone field first strips all non-digit characters from
the raw value, stores the stripped value, and validates the stripped value;
with the spec's two examples. -/
theorem phone_update_strips (s : FormStore) (v : String) :
    (handleInputChange s StrField.phone v).formData.phone = stripNonDigits v ∧
    (handleInputChange s StrField.phone v).errors.phone
      = some (validateField.phone (stripNonDigits v)) ∧
    (handleInputChange initialStore StrField.phone "12a3456789").formData.phone
      = "123456789" ∧
    (handleInputChange initialStore StrField.phone "12a3456789").errors.phone
      = some "Please enter a valid 10-digit phone number" ∧
    (handleInputChange initialStore StrField.phone "1234567890").errors.phone
      = some "" := by
  refine ⟨?_, ?_, by decide, by decide, by decide⟩ <;>
    simp [handleInputChange, applyEffect, FormData.set, Errors.set, validateStr]

/-- C8: `handleCountryChange` stores the value both into the dedicated
`selectedCountry` slot and into `formData.country`, and the submission
payload's country always comes from the `selectedCountry` slot. -/
theorem country_sync (s : FormStore) (v : String) :
    (handleCountryChange s v).selectedCountry = v ∧
    (handleCountryChange s v).formData.country = v ∧
    (submissionData s).country = s.selectedCountry := by
  refine ⟨?_, ?_, rfl⟩ <;>
    simp [handleCountryChange, handleInputChange, applyEffect, FormData.set,
      Errors.set]

/-- C9: updating the same field with the same value twice yields the same
`formData` and `errors` as updating it once. -/
theorem update_idempotent (s : FormStore) (f : StrField) (v : String) :
    (handleInputChange (handleInputChange s f v) f v).formData
      = (handleInputChange s f v).formData ∧
    (handleInputChange (handleInputChange s f v) f v).errors
      = (handleInputChange s f v).errors := by
  cases f <;>
    simp [handleInputChange, applyEffect, FormData.set, Errors.set,
      validateStr, stripNonDigits_idem]

/-- C10: the stripped phone value consists solely of digits, so the
digits-only branch of the phone validator is unreachable through the update
path: the stored phone error is always the required message, the 10-digit
length message, or empty. -/
theorem phone_error_trichotomy (s : FormStore) (v : String) :
    (stripNonDigits v).data.all Char.isDigit = true ∧
    ((handleInputChange s StrField.phone v).errors.phone
        = some "Phone number is required" ∨
     (handleInputChange s StrField.phone v).errors.phone
        = some "Please enter a valid 10-digit phone number" ∨
     (handleInputChange s StrField.phone v).errors.phone = some "") := by
  constructor
  · exact all_isDigit_filter v.data
  · have herr : (handleInputChange s StrField.phone v).errors.phone
        = some (validateField.phone (stripNonDigits v)) := by
      simp [handleInputChange, applyEffect, Errors.set, validateStr]
    rw [herr]
    by_cases h : stripNonDigits v = ""
    · left; simp [validateField.phone, h]
    · have hne : (stripNonDigits v).data ≠ [] := by
        intro hnil
        exact h (string_eq_of_data_eq _ _ hnil)
      have hd : digitsOnlyTest (stripNonDigits v) = true := by
        have hie : (v.data.filter Char.isDigit).isEmpty = false := by
          cases hl : v.data.filter Char.isDigit with
          | nil => exact absurd hl hne
          | cons a t => rfl
        show (!(v.data.filter Char.isDigit).isEmpty &&
              (v.data.filter Char.isDigit).all Char.isDigit) = true
        rw [hie, all_isDigit_filter]
        rfl
      by_cases hl : (stripNonDigits v).length = 10
      · right; right; simp [validateField.phone, h, hd, hl]
      · right; left; simp [validateField.phone, h, hd, hl]
